import Mathlib

/-!
Verification development for the Review-Master repository.

Shallow embedding of the messaging-automation core:
* `src/infrastructure/llm/sentiment_service.py` (sentiment classification),
* `src/infrastructure/importer/excel_parser.py` (phone normalization),
* `src/infrastructure/whatsapp/whatsapp_client.py` (reply waiting, close),
* `src/infrastructure/whatsapp/messaging_provider.py` (provider variants),
* `src/infrastructure/persistence/database.py` (customer status updates),
* `run_campaign.py` (campaign orchestration loop).

Python exceptions are modelled with `Except PyError`; a Python function whose
body absorbs every exception is embedded as a total function built from the
`Except`-valued body of its try region.  External effects (the Selenium DOM,
the HTTP classification call) are modelled as explicit inputs: a DOM scan is a
list of messages, the remote classification call is an `LlmCallResult` value.
-/

set_option autoImplicit false

namespace ReviewMaster

/-- Python exception values that the embedded code raises or absorbs. -/
inductive PyError
  | timeout
  | requestError
  | blocked
  | other (msg : String)
  deriving DecidableEq, Repr

/-! ### Sentiment service (src/infrastructure/llm/sentiment_service.py) -/

/-- The `Sentiment` enum of `sentiment_service.py`. -/
inductive Sentiment
  | positive
  | neutral
  | negative
  deriving DecidableEq, Repr

/-- The `.value` string of each `Sentiment` enum member. -/
def Sentiment.value : Sentiment → String
  | .positive => "Positive"
  | .neutral => "Neutral"
  | .negative => "Negative"

/-- `SentimentService.POSITIVE_KEYWORDS`. -/
def POSITIVE_KEYWORDS : List String :=
  ["great", "good", "love", "loved", "excellent", "awesome",
   "amazing", "happy", "satisfied", "wonderful", "fantastic",
   "perfect", "best", "thank", "thanks", "appreciate"]

/-- `SentimentService.NEGATIVE_KEYWORDS`. -/
def NEGATIVE_KEYWORDS : List String :=
  ["bad", "terrible", "disappoint", "disappointed", "poor",
   "hate", "unhappy", "problem", "issue", "worst", "awful",
   "horrible", "never", "waste", "refund", "angry", "upset"]

/-- Substring test on character lists: `kw` occurs contiguously in the
remaining list. -/
def infixCheck (kw : List Char) : List Char → Bool
  | [] => kw.isEmpty
  | c :: rest => kw.isPrefixOf (c :: rest) || infixCheck kw rest

/-- Python substring test `kw in hay`. -/
def containsSub (hay kw : String) : Bool :=
  infixCheck kw.toList hay.toList

/-- Python `str.strip()` with no argument: remove leading and trailing
whitespace. -/
def pyStrip (s : String) : String :=
  String.mk (((s.toList.dropWhile Char.isWhitespace).reverse.dropWhile
    Char.isWhitespace).reverse)

/-- Python `str.lower()` (ASCII range, which covers every string the
embedded code compares). -/
def pyLower (s : String) : String :=
  String.mk (s.toList.map Char.toLower)

/-- Python `str.split()[0]` when it exists: the first maximal run of
non-whitespace characters. -/
def pyFirstWord (s : String) : Option String :=
  match s.toList.dropWhile Char.isWhitespace with
  | [] => none
  | c :: cs => some (String.mk ((c :: cs).takeWhile (fun d => !d.isWhitespace)))

/-- Python `str.capitalize()`: first character upper-cased, the rest
lower-cased. -/
def pyCapitalize (s : String) : String :=
  match s.toList with
  | [] => ""
  | c :: cs => String.mk (c.toUpper :: cs.map Char.toLower)

/-- Python `s[:n]` slicing. -/
def pyTake (s : String) (n : Nat) : String :=
  String.mk (s.toList.take n)

/-- Python `str.startswith`. -/
def pyStartsWith (s pre : String) : Bool :=
  pre.toList.isPrefixOf s.toList

/-- Python `s[n:]` slicing. -/
def pyDrop (s : String) (n : Nat) : String :=
  String.mk (s.toList.drop n)

/-- Message payload `{"content": ...}` of one choice of the remote
classification response. -/
structure ApiMessage where
  content : String
  deriving DecidableEq, Repr

/-- One element of the `choices` array of the remote classification
response. -/
structure ApiChoice where
  message : ApiMessage
  deriving DecidableEq, Repr

/-- The response payload shape `{choices: [{message: {content: ...}}]}`. -/
structure ApiResponse where
  choices : List ApiChoice
  deriving DecidableEq, Repr

/-- `SentimentService._extract_response_content`: first choice's message
content, stripped; `""` when `choices` is empty. -/
def extractResponseContent (data : ApiResponse) : String :=
  match data.choices with
  | [] => ""
  | c :: _ => pyStrip c.message.content

/-- `SentimentService._parse_sentiment_label`.  The source indexes
`content.split()[0]`; its callers only pass stripped content, and the call
site sits inside the try region of `_classify_with_llm`, so a whitespace-only
argument (IndexError in Python) is absorbed into `none` like every other
failure. -/
def parseSentimentLabel (content : String) : Option Sentiment :=
  if content = "" then none
  else
    match pyFirstWord content with
    | none => none
    | some w =>
      let first_word := pyCapitalize (pyStrip w)
      if first_word = "Positive" then some .positive
      else if first_word = "Neutral" then some .neutral
      else if first_word = "Negative" then some .negative
      else some .neutral

/-- Outcome of the one outbound HTTP classification call made by
`_classify_with_llm`: it times out, fails with a request error (bad status,
network, malformed JSON), raises some other exception, or yields a parsed
response payload. -/
inductive LlmCallResult
  | timeout
  | requestError
  | otherError (msg : String)
  | response (data : ApiResponse)
  deriving DecidableEq, Repr

/-- The try region of `SentimentService._classify_with_llm`: raises on call
failure, otherwise extracts and parses the label. -/
def llmTryBody (outcome : LlmCallResult) : Except PyError (Option Sentiment) :=
  match outcome with
  | .timeout => .error .timeout
  | .requestError => .error .requestError
  | .otherError m => .error (.other m)
  | .response data => .ok (parseSentimentLabel (extractResponseContent data))

/-- `SentimentService._classify_with_llm`: the three except arms
(`requests.Timeout`, `requests.RequestException`, `Exception`) each return
`None`. -/
def classifyWithLlm (outcome : LlmCallResult) : Option Sentiment :=
  match llmTryBody outcome with
  | .ok r => r
  | .error .timeout => none
  | .error .requestError => none
  | .error _ => none

/-- `SentimentService._classify_with_heuristics`. -/
def classifyWithHeuristics (text : String) : Sentiment :=
  let lower_text := pyLower text
  let has_positive := POSITIVE_KEYWORDS.any (fun kw => containsSub lower_text kw)
  let has_negative := NEGATIVE_KEYWORDS.any (fun kw => containsSub lower_text kw)
  if has_positive && !has_negative then .positive
  else if has_negative && !has_positive then .negative
  else .neutral

/-- `SentimentService.classify`.  `api_key` is `settings.llm.api_key` (empty
string when no credential is configured); `outcome` is the result the one
remote call would have, consulted only when the LLM tier actually runs.
Python `if result:` on an enum member tests `is not None`. -/
def classify (api_key : String) (outcome : LlmCallResult) (text : String) : Sentiment :=
  if text = "" ∨ (pyStrip text).toList.length < 3 then .neutral
  else if api_key ≠ "" then
    match classifyWithLlm outcome with
    | some result => result
    | none => classifyWithHeuristics text
  else
    classifyWithHeuristics text

/-! ### Phone normalization (src/infrastructure/importer/excel_parser.py) -/

/-- `ExcelParser._clean_phone`.  `re.sub` with pattern excluding digits and
plus signs keeps digits and EVERY plus sign, wherever it occurs; then a
leading plus, then a leading "00", are removed. -/
def clean_phone (phone : String) : String :=
  if phone = "" ∨ pyLower phone = "nan" then ""
  else
    let cleaned := String.mk ((pyStrip phone).toList.filter
      (fun c => c.isDigit || c == '+'))
    let cleaned := if pyStartsWith cleaned "+" then pyDrop cleaned 1 else cleaned
    let cleaned := if pyStartsWith cleaned "00" then pyDrop cleaned 2 else cleaned
    cleaned

/-! ### Message discovery and reply waiting
(src/infrastructure/whatsapp/whatsapp_client.py)

A DOM scan (`_get_message_elements` followed by text extraction) is modelled
as a list of `ChatMessage`s in DOM order (oldest first), one per discovered
element: its identity token, its direction flag, and the text that
`_extract_text_from_message` would yield for it (`""` when extraction finds
no text, matching the falsy `None`/empty cases that the waiting loop skips).
A scan that raises is observationally the empty scan: the loop sleeps and
polls again either way. -/

/-- One discovered message element: `(element, is_incoming, msg_id)` plus its
extractable text. -/
structure ChatMessage where
  token : String
  incoming : Bool
  text : String
  deriving DecidableEq, Repr

namespace WhatsAppClient

/-- The baseline capture of `wait_for_reply`: identity tokens of the
currently visible incoming messages. -/
def baselineOf (msgs : List ChatMessage) : List String :=
  (msgs.filter (fun m => m.incoming)).map (fun m => m.token)

/-- The per-message body of the polling loop: skip (`none`) on an outgoing
message, a token already in the baseline, empty extracted text, or — when
`ignore_text` is non-empty (Python truthiness) — text equal to
`ignore_text`; otherwise return the text. -/
def scanBody (baseline : List String) (ignore_text : String)
    (m : ChatMessage) : Option String :=
  if !m.incoming then none
  else if baseline.contains m.token then none
  else if m.text == "" then none
  else if ignore_text != "" && m.text == ignore_text then none
  else some m.text

/-- One pass of the polling loop body over a scan: iterate `reversed
(messages)` (newest first) and return the first message the body accepts. -/
def scanForReply (baseline : List String) (ignore_text : String)
    (msgs : List ChatMessage) : Option String :=
  msgs.reverse.findSome? (scanBody baseline ignore_text)

/-- The polling loop of `wait_for_reply`: the environment supplies the scan
each iteration sees; the list length is the number of polls that fit before
`timeout` elapses.  Returns on the first successful scan, `none` when the
deadline passes. -/
def waitLoop (ignore_text : String) (baseline : List String) :
    List (List ChatMessage) → Option String
  | [] => none
  | msgs :: rest =>
    match scanForReply baseline ignore_text msgs with
    | some t => some t
    | none => waitLoop ignore_text baseline rest

/-- `WhatsAppClient.wait_for_reply`: capture the baseline from the initial
scan, then poll. -/
def wait_for_reply (ignore_text : String) (initialScan : List ChatMessage)
    (polls : List (List ChatMessage)) : Option String :=
  waitLoop ignore_text (baselineOf initialScan) polls

/-- The predicate the polling loop accepts: incoming, token outside the
baseline, non-empty text, not the ignored echo. -/
def isNewReply (baseline : List String) (ignore_text : String)
    (m : ChatMessage) : Bool :=
  m.incoming && !(baseline.contains m.token) && !(m.text == "")
    && !(ignore_text != "" && m.text == ignore_text)

end WhatsAppClient

/-! ### Selenium client session state and providers
(whatsapp_client.py close, messaging_provider.py) -/

/-- The client state `WhatsAppClient.close` interacts with: whether
`driver.quit()` would raise. -/
structure ClientState where
  quitRaises : Bool
  deriving DecidableEq, Repr

/-- `driver.quit()`. -/
def driverQuit (c : ClientState) : Except PyError Unit :=
  if c.quitRaises then .error (.other "quit failed") else .ok ()

/-- `WhatsAppClient.close`: `driver.quit()` inside try/except — every
exception is absorbed (logged at debug level), so no error escapes: the
result is `.ok ()` on every path. -/
def WhatsAppClient.close (c : ClientState) : Except PyError Unit :=
  match driverQuit c with
  | .ok _ => .ok ()
  | .error _ => .ok ()

/-- Environment of one `SeleniumProvider.send_message` call: whether a block
indicator is on the page when `open_chat` runs, whether chat navigation
succeeds, and whether typing/submitting the text succeeds. -/
structure SendEnv where
  blockIndicator : Bool
  openChatOk : Bool
  typeOk : Bool
  deriving DecidableEq, Repr

/-- `WhatsAppClient.open_chat`: raises `WhatsAppBlockedError` when a block
indicator is present in the page source, otherwise reports navigation
success (all other internal failures are absorbed into `False`). -/
def WhatsAppClient.open_chat (env : SendEnv) : Except PyError Bool :=
  if env.blockIndicator then .error .blocked
  else .ok env.openChatOk

/-- `self._client` / `self._connected` of `SeleniumProvider`. -/
structure SeleniumProviderState where
  client : Option ClientState
  connected : Bool
  deriving DecidableEq, Repr

namespace SeleniumProvider

/-- `SeleniumProvider.__init__`. -/
def init : SeleniumProviderState :=
  { client := none, connected := false }

/-- `SeleniumProvider.connect`: constructing `WhatsAppClient` either yields a
client (store it, return True) or raises (absorbed: log, return False,
fields unchanged).  Note `_connected` is not touched on success. -/
def connect (st : SeleniumProviderState) (launch : Except PyError ClientState) :
    SeleniumProviderState × Bool :=
  match launch with
  | .ok c => ({ st with client := some c }, true)
  | .error _ => (st, false)

/-- `SeleniumProvider.is_connected`. -/
def is_connected (st : SeleniumProviderState) : Bool :=
  st.connected && st.client.isSome

/-- `SeleniumProvider.confirm_login`: absent client short-circuits to False;
otherwise `_connected` becomes the `wait_for_login` result. -/
def confirm_login (st : SeleniumProviderState) (loginResult : Bool) :
    SeleniumProviderState × Bool :=
  match st.client with
  | none => (st, false)
  | some _ => ({ st with connected := loginResult }, loginResult)

/-- `SeleniumProvider.close`: when a client is present, close it (its own
try/except absorbs any error), then clear `_client` and `_connected`; a
no-op when already closed. -/
def close (st : SeleniumProviderState) : SeleniumProviderState :=
  match st.client with
  | none => st
  | some c =>
    match WhatsAppClient.close c with
    | .ok _ => { client := none, connected := false }
    | .error _ => { client := none, connected := false }

/-- `SeleniumProvider.send_message`: absent client → False; otherwise
`open_chat` (which may raise Blocked) then `client.send_message`.  The
`phone`/`text` arguments are threaded for fidelity; their effect on the chat
surface is abstracted by `env`. -/
def send_message (st : SeleniumProviderState) (env : SendEnv)
    (phone text : String) : Except PyError Bool :=
  match st.client with
  | none => .ok false
  | some _ =>
    let _ := (phone, text)
    match WhatsAppClient.open_chat env with
    | .error e => .error e
    | .ok false => .ok false
    | .ok true => .ok env.typeOk

/-- `SeleniumProvider.wait_for_reply`: absent client → None; otherwise the
client polling loop with no ignore text. -/
def wait_for_reply (st : SeleniumProviderState) (initialScan : List ChatMessage)
    (polls : List (List ChatMessage)) : Option String :=
  match st.client with
  | none => none
  | some _ => WhatsAppClient.wait_for_reply "" initialScan polls

end SeleniumProvider

/-- Field state of `APIProvider`. -/
structure APIProviderState where
  api_key : String
  phone_number_id : String
  api_url : String
  connected : Bool
  deriving DecidableEq, Repr

namespace APIProvider

/-- `APIProvider.__init__` with the default Meta Cloud API base URL. -/
def init (api_key phone_number_id api_url : String) : APIProviderState :=
  { api_key, phone_number_id,
    api_url := if api_url = "" then "https://graph.facebook.com/v18.0" else api_url,
    connected := false }

/-- `APIProvider.connect`: credential-shape validation only; with both
credentials present the stub marks itself connected and returns True. -/
def connect (st : APIProviderState) : APIProviderState × Bool :=
  if st.api_key = "" || st.phone_number_id = "" then (st, false)
  else ({ st with connected := true }, true)

/-- `APIProvider.is_connected`. -/
def is_connected (st : APIProviderState) : Bool :=
  st.connected

/-- `APIProvider.send_message` (stub): not connected → log and return False;
connected → log a warning and return False.  No path raises. -/
def send_message (st : APIProviderState) (phone text : String) :
    Except PyError Bool :=
  if !st.connected then .ok false
  else
    let _ := (phone, text)
    .ok false

/-- `APIProvider.wait_for_reply` (stub): logs a warning and returns None on
every input.  No path raises. -/
def wait_for_reply (st : APIProviderState) (phone : String) (timeout : Nat) :
    Except PyError (Option String) :=
  let _ := (st, phone, timeout)
  .ok none

/-- `APIProvider.close`. -/
def close (st : APIProviderState) : APIProviderState :=
  { st with connected := false }

end APIProvider

/-! ### Persistence (src/infrastructure/persistence/database.py)

The customers table is a list of records; `update_customer` builds an UPDATE
on the row with the given id, so it is a per-field rewrite of the matching
records. -/

/-- The `Customer` dataclass / customers-table row. -/
structure Customer where
  id : Nat
  user_id : Nat
  name : String
  phone : String
  product : String
  has_review : Bool
  status : String
  sentiment : String
  last_message : String
  created_at : String
  deriving DecidableEq, Repr

namespace Database

/-- `Database.update_customer` specialised to a field rewrite `f`: every row
whose id matches is rewritten, others untouched; no row is added or
removed. -/
def update_customer (db : List Customer) (customer_id : Nat)
    (f : Customer → Customer) : List Customer :=
  db.map (fun c => if c.id = customer_id then f c else c)

/-- `Database.mark_done`: sets `status="done"`, `has_review=1`, the given
sentiment, and `last_message[:200]`. -/
def mark_done (db : List Customer) (customer_id : Nat)
    (sentiment last_message : String) : List Customer :=
  update_customer db customer_id (fun c =>
    { c with status := "done", has_review := true, sentiment := sentiment,
             last_message := pyTake last_message 200 })

/-- `Database.mark_no_reply`: sets `status="no_reply"`. -/
def mark_no_reply (db : List Customer) (customer_id : Nat) : List Customer :=
  update_customer db customer_id (fun c => { c with status := "no_reply" })

/-- `Database.mark_error`: sets `status="error"` and
`last_message = ("Error: " + error)[:200]`. -/
def mark_error (db : List Customer) (customer_id : Nat) (error : String) :
    List Customer :=
  update_customer db customer_id (fun c =>
    { c with status := "error", last_message := pyTake ("Error: " ++ error) 200 })

/-- `Database.get_pending_customers` with no user filter (as the campaign
runner calls it). -/
def get_pending_customers (db : List Customer) : List Customer :=
  db.filter (fun c => c.status == "pending")

end Database

/-! ### Campaign orchestration (run_campaign.py)

The per-customer loop body of `run_campaign` sits in a try region whose
handlers are `except KeyboardInterrupt: break` and `except Exception:
mark_error and continue`.  `processCustomer` is that try region as an
`Except`-valued function; `campaignLoop` is the loop with its
`except Exception` arm.  Operator interrupts (KeyboardInterrupt) are
external events outside the model.  The inter-customer randomized delay
affects timing only, not state. -/

/-- `REVIEW_REQUEST` template, rendered. -/
def REVIEW_REQUEST (name product : String) : String :=
  "Hi " ++ name ++ ", we noticed you recently purchased " ++ product ++
  ". We hope you\x27re satisfied! Would you mind sharing a quick review about your experience?"

/-- `GOOGLE_LINK_MSG` template, rendered. -/
def GOOGLE_LINK_MSG (name link : String) : String :=
  "Thank you so much for your kind words, " ++ name ++
  "! We really appreciate it. If you have a moment, we would be grateful if you could share your experience on Google: "
  ++ link

/-- `THANK_YOU_MSG` template, rendered. -/
def THANK_YOU_MSG (name : String) : String :=
  "Thank you for your feedback, " ++ name ++
  ". We appreciate you taking the time to share your thoughts with us."

/-- Python `str(e)` for the exceptions the campaign loop can catch.
`open_chat` raises `WhatsAppBlockedError("WhatsApp blocking detected")`. -/
def PyError.message : PyError → String
  | .blocked => "WhatsApp blocking detected"
  | .timeout => "timed out"
  | .requestError => "request failed"
  | .other m => m

/-- External behavior visible while processing one customer: the result of
`read_latest_incoming_message`, the environments of the (up to two)
`provider.send_message` calls, the reply produced by the waiting loop, and
the outcome of the remote classification call if one is made. -/
structure CustomerEnv where
  readIncoming : Option String
  send1 : SendEnv
  reply : Option String
  send2 : SendEnv
  llm : LlmCallResult
  deriving DecidableEq, Repr

/-- The try region of the per-customer body of `run_campaign`: branches on
`has_review`, sends/waits/classifies, and writes exactly one of the
`mark_done`/`mark_no_reply`/`mark_error` updates (or none, on the
read-failure path).  A `WhatsAppBlockedError` from `open_chat` inside
`provider.send_message` escapes this region. -/
def processCustomer (api_key google_link : String) (st : SeleniumProviderState)
    (env : CustomerEnv) (db : List Customer) (c : Customer) :
    Except PyError (List Customer) :=
  let product_name := if c.product = "" then "your recent purchase" else c.product
  if c.has_review then
    match env.readIncoming with
    | some msg =>
      let sentiment := (classify api_key env.llm msg).value
      let text := if sentiment = "Positive" then GOOGLE_LINK_MSG c.name google_link
                  else THANK_YOU_MSG c.name
      match SeleniumProvider.send_message st env.send1 c.phone text with
      | .error e => .error e
      | .ok true => .ok (Database.mark_done db c.id sentiment (pyTake text 100))
      | .ok false => .ok (Database.mark_error db c.id "Failed to send message")
    | none => .ok db
  else
    let text := REVIEW_REQUEST c.name product_name
    match SeleniumProvider.send_message st env.send1 c.phone text with
    | .error e => .error e
    | .ok true =>
      match env.reply with
      | some reply =>
        let sentiment := (classify api_key env.llm reply).value
        let response := if sentiment = "Positive" then GOOGLE_LINK_MSG c.name google_link
                        else THANK_YOU_MSG c.name
        match SeleniumProvider.send_message st env.send2 c.phone response with
        | .error e => .error e
        | .ok true => .ok (Database.mark_done db c.id sentiment (pyTake response 100))
        | .ok false => .ok (Database.mark_error db c.id "Failed to send response")
      | none => .ok (Database.mark_no_reply db c.id)
    | .ok false => .ok (Database.mark_error db c.id "Failed to send request")

/-- The customer loop of `run_campaign` with its `except Exception` arm: an
exception escaping a customer's try region marks that customer `error` with
`str(e)[:100]` and the loop continues with the next customer. -/
def campaignLoop (api_key google_link : String) (st : SeleniumProviderState)
    (envs : Nat → CustomerEnv) (db : List Customer) :
    List Customer → List Customer
  | [] => db
  | c :: rest =>
    match processCustomer api_key google_link st (envs c.id) db c with
    | .ok db2 => campaignLoop api_key google_link st envs db2 rest
    | .error e =>
      campaignLoop api_key google_link st envs
        (Database.mark_error db c.id (pyTake e.message 100)) rest

/-! ## Helper lemmas -/

lemma classifyWithLlm_eq_none {outcome : LlmCallResult}
    (h : (llmTryBody outcome).isOk = false) :
    classifyWithLlm outcome = none := by
  cases outcome <;> simp_all [llmTryBody, classifyWithLlm, Except.isOk, Except.toBool]

lemma SeleniumProvider.close_eq (st : SeleniumProviderState) :
    SeleniumProvider.close st =
      match st.client with
      | none => st
      | some _ => { client := none, connected := false } := by
  cases hc : st.client with
  | none => simp [SeleniumProvider.close, hc]
  | some c =>
    simp only [SeleniumProvider.close, hc]
    cases h : WhatsAppClient.close c <;> rfl

lemma classify_noKey (outcome : LlmCallResult) (text : String)
    (h3 : 3 ≤ (pyStrip text).toList.length) :
    classify "" outcome text = classifyWithHeuristics text := by
  unfold classify
  rw [if_neg, if_neg]
  · simp
  · rintro (rfl | hlt)
    · simp [pyStrip] at h3
    · exact absurd hlt (Nat.not_lt.mpr h3)

lemma scan_body_eq (baseline : List String) (ignore_text : String)
    (m : ChatMessage) :
    WhatsAppClient.scanBody baseline ignore_text m =
      if WhatsAppClient.isNewReply baseline ignore_text m then some m.text
      else none := by
  unfold WhatsAppClient.scanBody WhatsAppClient.isNewReply
  cases h1 : m.incoming <;> cases h2 : baseline.contains m.token <;>
    cases h3 : (m.text == "") <;>
    cases h4 : (ignore_text != "" && m.text == ignore_text) <;> rfl

lemma scanForReply_eq_find? (baseline : List String) (ignore_text : String)
    (msgs : List ChatMessage) :
    WhatsAppClient.scanForReply baseline ignore_text msgs =
      (msgs.reverse.find? (WhatsAppClient.isNewReply baseline ignore_text)).map
        (fun m => m.text) := by
  unfold WhatsAppClient.scanForReply
  generalize msgs.reverse = l
  induction l with
  | nil => rfl
  | cons m l ih =>
    rw [List.findSome?_cons, scan_body_eq]
    cases hp : WhatsAppClient.isNewReply baseline ignore_text m with
    | true =>
      rw [List.find?_cons_of_pos _ hp]
      rfl
    | false =>
      rw [List.find?_cons_of_neg _ (by simp [hp]), ← ih]
      rfl

lemma scanForReply_eq_none_iff (baseline : List String) (ignore_text : String)
    (msgs : List ChatMessage) :
    WhatsAppClient.scanForReply baseline ignore_text msgs = none ↔
      ∀ m ∈ msgs, WhatsAppClient.isNewReply baseline ignore_text m = false := by
  rw [scanForReply_eq_find?]
  simp [List.find?_eq_none]

lemma waitLoop_some_sound (ignore_text : String) (baseline : List String)
    (polls : List (List ChatMessage)) (t : String)
    (h : WhatsAppClient.waitLoop ignore_text baseline polls = some t) :
    ∃ poll ∈ polls, ∃ m ∈ poll,
      WhatsAppClient.isNewReply baseline ignore_text m = true ∧ m.text = t := by
  induction polls with
  | nil => simp [WhatsAppClient.waitLoop] at h
  | cons msgs rest ih =>
    simp only [WhatsAppClient.waitLoop] at h
    cases hs : WhatsAppClient.scanForReply baseline ignore_text msgs with
    | some t2 =>
      rw [hs] at h
      simp only [Option.some.injEq] at h
      subst h
      rw [scanForReply_eq_find?] at hs
      cases hf : msgs.reverse.find? (WhatsAppClient.isNewReply baseline ignore_text) with
      | none => rw [hf] at hs; simp at hs
      | some m =>
        rw [hf] at hs
        simp at hs
        exact ⟨msgs, by simp, m,
          (List.mem_reverse).1 (List.mem_of_find?_eq_some hf),
          List.find?_some hf, hs⟩
    | none =>
      rw [hs] at h
      obtain ⟨poll, hp, m, hm, hnew, ht⟩ := ih h
      exact ⟨poll, by simp [hp], m, hm, hnew, ht⟩

lemma waitLoop_none_iff (ignore_text : String) (baseline : List String)
    (polls : List (List ChatMessage)) :
    WhatsAppClient.waitLoop ignore_text baseline polls = none ↔
      ∀ poll ∈ polls, ∀ m ∈ poll,
        WhatsAppClient.isNewReply baseline ignore_text m = false := by
  induction polls with
  | nil => simp [WhatsAppClient.waitLoop]
  | cons msgs rest ih =>
    simp only [WhatsAppClient.waitLoop]
    cases hs : WhatsAppClient.scanForReply baseline ignore_text msgs with
    | some t =>
      simp only [List.mem_cons]
      constructor
      · intro h; exact Option.noConfusion h
      · intro hall
        have hnone : WhatsAppClient.scanForReply baseline ignore_text msgs = none := by
          rw [scanForReply_eq_none_iff]
          intro m hm
          exact hall msgs (Or.inl rfl) m hm
        rw [hs] at hnone
        exact Option.noConfusion hnone
    | none =>
      have hmsgs := (scanForReply_eq_none_iff baseline ignore_text msgs).1 hs
      simp only [ih, List.forall_mem_cons]
      constructor
      · intro h; exact ⟨hmsgs, h⟩
      · intro h; exact h.2

/-! ## Claim theorems -/

/-- C2: the baseline `B` is exactly the token set of the incoming messages
of the pre-wait scan; a message qualifies iff it is incoming, its token is
outside `B` (i.e. in `S \ B` for the scan set `S` it belongs to), its text
is non-empty, and it is not the caller's ignore string; each poll scans
newest-first and returns the first qualifying message's text; a returned
text comes from a qualifying message of some poll; and the wait returns
`none` iff no poll before the timeout contains a qualifying message. -/
theorem wait_for_reply_dedup (ignore_text : String)
    (initialScan : List ChatMessage) (polls : List (List ChatMessage)) :
    (∀ tok, tok ∈ WhatsAppClient.baselineOf initialScan ↔
      ∃ m ∈ initialScan, m.incoming = true ∧ m.token = tok) ∧
    (∀ (baseline : List String) (m : ChatMessage),
      WhatsAppClient.isNewReply baseline ignore_text m = true ↔
        (m.incoming = true ∧ baseline.contains m.token = false ∧
          m.text ≠ "" ∧ (ignore_text ≠ "" → m.text ≠ ignore_text))) ∧
    (∀ msgs, WhatsAppClient.scanForReply (WhatsAppClient.baselineOf initialScan)
        ignore_text msgs =
      (msgs.reverse.find?
        (WhatsAppClient.isNewReply (WhatsAppClient.baselineOf initialScan)
          ignore_text)).map (fun m => m.text)) ∧
    (∀ t, WhatsAppClient.wait_for_reply ignore_text initialScan polls = some t →
      ∃ poll ∈ polls, ∃ m ∈ poll,
        WhatsAppClient.isNewReply (WhatsAppClient.baselineOf initialScan)
          ignore_text m = true ∧ m.text = t) ∧
    (WhatsAppClient.wait_for_reply ignore_text initialScan polls = none ↔
      ∀ poll ∈ polls, ∀ m ∈ poll,
        WhatsAppClient.isNewReply (WhatsAppClient.baselineOf initialScan)
          ignore_text m = false) := by
  refine ⟨?_, ?_, ?_, ?_, ?_⟩
  · intro tok
    simp only [WhatsAppClient.baselineOf, List.mem_map, List.mem_filter]
    constructor
    · rintro ⟨m, ⟨hm, hin⟩, htok⟩
      exact ⟨m, hm, hin, htok⟩
    · rintro ⟨m, hm, hin, htok⟩
      exact ⟨m, ⟨hm, hin⟩, htok⟩
  · intro baseline m
    unfold WhatsAppClient.isNewReply
    cases h1 : m.incoming <;> cases h2 : baseline.contains m.token <;>
      cases h3 : (m.text == "") <;>
      cases h4 : (ignore_text != "" && m.text == ignore_text) <;>
      (simp_all [bne, Bool.not_eq_true, -ne_eq]; try tauto)
  · intro msgs
    exact scanForReply_eq_find? _ _ msgs
  · intro t h
    exact waitLoop_some_sound ignore_text _ polls t h
  · exact waitLoop_none_iff ignore_text _ polls

/-- C2 witness: a concrete run where the baseline holds one old incoming
token and the single poll adds a fresh incoming message. -/
theorem wait_for_reply_dedup_witness :
    WhatsAppClient.wait_for_reply "" [⟨"a", true, "old"⟩]
        [[⟨"a", true, "old"⟩, ⟨"b", true, "fresh"⟩]] = some "fresh" ∧
    ∃ poll ∈ [[(⟨"a", true, "old"⟩ : ChatMessage), ⟨"b", true, "fresh"⟩]],
      ∃ m ∈ poll,
        WhatsAppClient.isNewReply (WhatsAppClient.baselineOf [⟨"a", true, "old"⟩])
          "" m = true ∧ m.text = "fresh" :=
  ⟨by decide,
    (wait_for_reply_dedup "" [⟨"a", true, "old"⟩]
        [[⟨"a", true, "old"⟩, ⟨"b", true, "fresh"⟩]]).2.2.2.1 "fresh" (by decide)⟩

/-- C4: `_clean_phone` on the two spec examples, and on the failing input
`"12+34"`, where the interior plus sign survives: the result is not
digits-only, contradicting both the claim and the function's own docstring
("Removes spaces, dashes, + signs"). -/
theorem clean_phone_keeps_interior_plus :
    clean_phone "+92 300-1234567" = "923001234567" ∧
    clean_phone "0092-300" = "92300" ∧
    clean_phone "12+34" = "12+34" ∧
    ((clean_phone "12+34").toList.all Char.isDigit) = false := by
  refine ⟨by decide, by decide, by decide, by decide⟩

/-- C3: `classify` always returns one of the three labels, and whenever the
remote classification call fails (timeout, network/request error, or any
other exception — every arm the source absorbs), the result is exactly what
the short-circuit/heuristic tiers produce: the failure never propagates to
the caller. -/
theorem classify_total_absorbs_failures (api_key text : String)
    (outcome : LlmCallResult) :
    (classify api_key outcome text = .positive ∨
      classify api_key outcome text = .neutral ∨
      classify api_key outcome text = .negative) ∧
    ((llmTryBody outcome).isOk = false →
      classify api_key outcome text =
        if text = "" ∨ (pyStrip text).toList.length < 3 then Sentiment.neutral
        else classifyWithHeuristics text) := by
  constructor
  · cases h : classify api_key outcome text <;> simp
  · intro hfail
    unfold classify
    rw [classifyWithLlm_eq_none hfail]
    split
    · rfl
    · split <;> rfl

/-- C3 witness: a request error with a configured credential is absorbed into
the heuristic result. -/
theorem classify_total_absorbs_failures_witness :
    (llmTryBody LlmCallResult.requestError).isOk = false ∧
    classify "k" LlmCallResult.requestError "Terrible, I want a refund" =
      (if ("Terrible, I want a refund" : String) = "" ∨
          (pyStrip "Terrible, I want a refund").toList.length < 3 then Sentiment.neutral
       else classifyWithHeuristics "Terrible, I want a refund") :=
  ⟨by decide,
    (classify_total_absorbs_failures "k" "Terrible, I want a refund"
      LlmCallResult.requestError).2 (by decide)⟩

/-- C5: for text that reaches the heuristic tier under a credential-less
configuration, positive-only keyword matches give Positive, negative-only
give Negative, both-or-neither give Neutral; and the two spec examples. -/
theorem classify_heuristic_keywords (outcome : LlmCallResult) (text : String)
    (h3 : 3 ≤ (pyStrip text).toList.length) :
    (POSITIVE_KEYWORDS.any (fun kw => containsSub (pyLower text) kw) = true ∧
        NEGATIVE_KEYWORDS.any (fun kw => containsSub (pyLower text) kw) = false →
      classify "" outcome text = .positive) ∧
    (NEGATIVE_KEYWORDS.any (fun kw => containsSub (pyLower text) kw) = true ∧
        POSITIVE_KEYWORDS.any (fun kw => containsSub (pyLower text) kw) = false →
      classify "" outcome text = .negative) ∧
    (POSITIVE_KEYWORDS.any (fun kw => containsSub (pyLower text) kw) =
        NEGATIVE_KEYWORDS.any (fun kw => containsSub (pyLower text) kw) →
      classify "" outcome text = .neutral) ∧
    classify "" outcome "This is the best product, thank you!" = .positive ∧
    classify "" outcome "Terrible, I want a refund" = .negative := by
  rw [classify_noKey outcome text h3]
  refine ⟨?_, ?_, ?_, ?_, ?_⟩
  · rintro ⟨hp, hn⟩
    simp [classifyWithHeuristics, hp, hn]
  · rintro ⟨hn, hp⟩
    simp [classifyWithHeuristics, hp, hn]
  · intro heq
    cases hp : POSITIVE_KEYWORDS.any (fun kw => containsSub (pyLower text) kw) <;>
      simp [classifyWithHeuristics, hp, hp ▸ heq.symm]
  · rw [classify_noKey outcome _ (by decide)]; decide
  · rw [classify_noKey outcome _ (by decide)]; decide

/-- C5 witness at the first spec example. -/
theorem classify_heuristic_keywords_witness :
    3 ≤ (pyStrip "This is the best product, thank you!").toList.length ∧
    classify "" LlmCallResult.timeout "This is the best product, thank you!" =
      .positive :=
  ⟨by decide,
    (classify_heuristic_keywords LlmCallResult.timeout
        "This is the best product, thank you!" (by decide)).1
      ⟨by decide, by decide⟩⟩

/-- C6: text of trimmed length below 3 short-circuits to Neutral regardless
of credential and of what the remote call would return (so the remote tier
and the keyword heuristics are never consulted); at trimmed length exactly 3
the short-circuit does not fire: `"bad"` reaches the heuristics (Negative
under no credential) and reaches the remote tier when a credential is set
(a remote Positive answer is returned). -/
theorem classify_short_circuit_boundary :
    (∀ (api_key : String) (outcome : LlmCallResult) (text : String),
        (pyStrip text).toList.length < 3 →
        classify api_key outcome text = .neutral) ∧
    classify "" LlmCallResult.timeout "ok" = .neutral ∧
    classify "" LlmCallResult.timeout "bad" = .negative ∧
    classify "key" (.response ⟨[⟨⟨"Positive"⟩⟩]⟩) "bad" = .positive := by
  refine ⟨?_, by decide, by decide, by decide⟩
  intro api_key outcome text h
  unfold classify
  rw [if_pos (Or.inr h)]

/-- C6 witness: a short text is Neutral even when the remote call would
answer Negative. -/
theorem classify_short_circuit_boundary_witness :
    (pyStrip "a").toList.length < 3 ∧
    classify "key" (.response ⟨[⟨⟨"Negative"⟩⟩]⟩) "a" = .neutral :=
  ⟨by decide,
    classify_short_circuit_boundary.1 "key" (.response ⟨[⟨⟨"Negative"⟩⟩]⟩) "a"
      (by decide)⟩

/-- C7 counterexample: on a connected Cloud-API stub, `send_message` and
`wait_for_reply` return the ordinary negative results `False` and `None`
(no distinct error is raised), refuting the claim at this concrete input. -/
theorem api_stub_counterexample :
    (APIProvider.connect (APIProvider.init "EAAx" "1234567890" "")).2 = true ∧
    APIProvider.send_message (APIProvider.connect (APIProvider.init "EAAx" "1234567890" "")).1
        "923001234567" "Hello!" = .ok false ∧
    APIProvider.wait_for_reply (APIProvider.connect (APIProvider.init "EAAx" "1234567890" "")).1
        "923001234567" 180 = .ok none := by
  refine ⟨by decide, by rfl, by rfl⟩

/-- C7 amended: the stub operations never raise: for every state and
arguments `send_message` returns `False` and `wait_for_reply` returns
`None`, each as an ordinary (non-error) result. -/
theorem api_stub_negative_results (st : APIProviderState)
    (phone text : String) (timeout : Nat) :
    APIProvider.send_message st phone text = .ok false ∧
    APIProvider.wait_for_reply st phone timeout = .ok none := by
  constructor
  · unfold APIProvider.send_message
    split <;> rfl
  · rfl

/-- C9: `close()` on the browser-session provider is idempotent, leaves
`is_connected() = false`, and the underlying client close absorbs any
`driver.quit()` failure (no error escapes either call). -/
theorem close_idempotent_disconnects (st : SeleniumProviderState)
    (c : ClientState) :
    SeleniumProvider.close (SeleniumProvider.close st) = SeleniumProvider.close st ∧
    SeleniumProvider.is_connected (SeleniumProvider.close st) = false ∧
    WhatsAppClient.close c = .ok () := by
  refine ⟨?_, ?_, ?_⟩
  · cases h : st.client <;> simp [SeleniumProvider.close_eq, h]
  · cases h : st.client <;>
      simp [SeleniumProvider.close_eq, SeleniumProvider.is_connected, h]
  · unfold WhatsAppClient.close
    split <;> rfl

/-- C10: after a successful `connect()` on a fresh browser-session provider,
`is_connected()` is still false (`connect` never touches `_connected`), yet
`send_message` and `wait_for_reply` are already operational; `is_connected()`
becomes true exactly when `confirm_login` succeeds, stays false when it
fails, and is false again after `close()`. -/
theorem connect_ready_before_login (st : SeleniumProviderState)
    (launch : Except PyError ClientState) (c : ClientState)
    (phone text : String) (initialScan : List ChatMessage)
    (polls : List (List ChatMessage)) :
    (SeleniumProvider.connect st launch).1.connected = st.connected ∧
    (SeleniumProvider.connect SeleniumProvider.init (.ok c)).2 = true ∧
    SeleniumProvider.is_connected
        (SeleniumProvider.connect SeleniumProvider.init (.ok c)).1 = false ∧
    SeleniumProvider.send_message
        (SeleniumProvider.connect SeleniumProvider.init (.ok c)).1
        ⟨false, true, true⟩ phone text = .ok true ∧
    SeleniumProvider.wait_for_reply
        (SeleniumProvider.connect SeleniumProvider.init (.ok c)).1
        initialScan polls = WhatsAppClient.wait_for_reply "" initialScan polls ∧
    (SeleniumProvider.confirm_login
        (SeleniumProvider.connect SeleniumProvider.init (.ok c)).1 true).2 = true ∧
    SeleniumProvider.is_connected
        (SeleniumProvider.confirm_login
          (SeleniumProvider.connect SeleniumProvider.init (.ok c)).1 true).1 = true ∧
    SeleniumProvider.is_connected
        (SeleniumProvider.confirm_login
          (SeleniumProvider.connect SeleniumProvider.init (.ok c)).1 false).1 = false ∧
    SeleniumProvider.is_connected
        (SeleniumProvider.close
          (SeleniumProvider.confirm_login
            (SeleniumProvider.connect SeleniumProvider.init (.ok c)).1 true).1) = false := by
  cases launch <;>
    simp [SeleniumProvider.connect, SeleniumProvider.init,
      SeleniumProvider.is_connected, SeleniumProvider.confirm_login,
      SeleniumProvider.close_eq, SeleniumProvider.send_message,
      SeleniumProvider.wait_for_reply, WhatsAppClient.open_chat]

/-- The fields of a customer record the campaign never writes: identity
(id, owning-account id), name, phone, product, creation timestamp. -/
def customerIdentity (c : Customer) :
    Nat × Nat × String × String × String × String :=
  (c.id, c.user_id, c.name, c.phone, c.product, c.created_at)

lemma update_customer_map_eq {α : Type} (g : Customer → α)
    (f : Customer → Customer) (hg : ∀ c, g (f c) = g c)
    (db : List Customer) (cid : Nat) :
    (Database.update_customer db cid f).map g = db.map g := by
  unfold Database.update_customer
  rw [List.map_map]
  apply List.map_congr_left
  intro c _
  simp only [Function.comp_apply]
  by_cases h : c.id = cid
  · simp [h, hg]
  · simp [h]

lemma mark_done_map_identity (db : List Customer) (cid : Nat)
    (s lm : String) :
    (Database.mark_done db cid s lm).map customerIdentity =
      db.map customerIdentity := by
  unfold Database.mark_done
  apply update_customer_map_eq
  intro c
  rfl

lemma mark_no_reply_map_identity (db : List Customer) (cid : Nat) :
    (Database.mark_no_reply db cid).map customerIdentity =
      db.map customerIdentity := by
  unfold Database.mark_no_reply
  apply update_customer_map_eq
  intro c
  rfl

lemma mark_error_map_identity (db : List Customer) (cid : Nat)
    (err : String) :
    (Database.mark_error db cid err).map customerIdentity =
      db.map customerIdentity := by
  unfold Database.mark_error
  apply update_customer_map_eq
  intro c
  rfl

lemma processCustomer_map_identity (api_key google_link : String)
    (st : SeleniumProviderState) (env : CustomerEnv) (db db2 : List Customer)
    (c : Customer)
    (h : processCustomer api_key google_link st env db c = .ok db2) :
    db2.map customerIdentity = db.map customerIdentity := by
  unfold processCustomer at h
  dsimp only at h
  repeat' split at h
  all_goals cases h
  all_goals
    first
      | rfl
      | exact mark_done_map_identity ..
      | exact mark_error_map_identity ..
      | exact mark_no_reply_map_identity ..

lemma campaignLoop_map_identity (api_key google_link : String)
    (st : SeleniumProviderState) (envs : Nat → CustomerEnv)
    (cs : List Customer) :
    ∀ db : List Customer,
      (campaignLoop api_key google_link st envs db cs).map customerIdentity =
        db.map customerIdentity := by
  induction cs with
  | nil => intro db; rfl
  | cons c rest ih =>
    intro db
    simp only [campaignLoop]
    cases hp : processCustomer api_key google_link st (envs c.id) db c with
    | ok db2 =>
      exact (ih db2).trans
        (processCustomer_map_identity api_key google_link st _ db db2 c hp)
    | error e =>
      exact (ih _).trans (mark_error_map_identity db c.id _)

/-- C8 counterexample: `mark_done` on a customer imported without a review
flips `has_review` from false to true — a field outside
{status, sentiment, lastMessage} is mutated by the persistence step. -/
theorem mark_done_flips_has_review :
    (Database.mark_done
        [⟨1, 1, "Ayesha", "923001234567", "Blender", false, "pending", "", "", ""⟩]
        1 "Positive" "Thanks").map (fun c => c.has_review) = [true] ∧
    ([(⟨1, 1, "Ayesha", "923001234567", "Blender", false, "pending", "", "", ""⟩ :
        Customer)]).map (fun c => c.has_review) = [false] := by
  exact ⟨by decide, by decide⟩

/-- C8 amended: the campaign's persistence steps mutate only status,
sentiment, lastMessage and `has_review` (`mark_done` sets `has_review` to
true on the matching record); identity, name, phone, product and creation
timestamp are untouched by every step and by the whole campaign loop, and
no record is added or removed. -/
theorem orchestrator_frame_effect (db : List Customer) (cid : Nat)
    (s lm err api_key google_link : String) (st : SeleniumProviderState)
    (envs : Nat → CustomerEnv) (cs : List Customer) :
    (Database.mark_done db cid s lm).map customerIdentity =
      db.map customerIdentity ∧
    (Database.mark_no_reply db cid).map customerIdentity =
      db.map customerIdentity ∧
    (Database.mark_error db cid err).map customerIdentity =
      db.map customerIdentity ∧
    (Database.mark_no_reply db cid).map
        (fun c => (c.sentiment, c.last_message, c.has_review)) =
      db.map (fun c => (c.sentiment, c.last_message, c.has_review)) ∧
    (Database.mark_error db cid err).map (fun c => (c.sentiment, c.has_review)) =
      db.map (fun c => (c.sentiment, c.has_review)) ∧
    (Database.mark_done db cid s lm).map (fun c => c.has_review) =
      db.map (fun c => if c.id = cid then true else c.has_review) ∧
    (campaignLoop api_key google_link st envs db cs).map customerIdentity =
      db.map customerIdentity := by
  refine ⟨mark_done_map_identity db cid s lm,
    mark_no_reply_map_identity db cid,
    mark_error_map_identity db cid err,
    by unfold Database.mark_no_reply
       apply update_customer_map_eq
       intro c
       rfl,
    by unfold Database.mark_error
       apply update_customer_map_eq
       intro c
       rfl,
    ?_,
    campaignLoop_map_identity api_key google_link st envs cs db⟩
  unfold Database.mark_done Database.update_customer
  rw [List.map_map]
  apply List.map_congr_left
  intro c _
  by_cases h : c.id = cid <;> simp [h]

/-- Environment for the customer whose `open_chat` sees a block indicator:
the first `provider.send_message` raises `WhatsAppBlockedError`. -/
def blockedEnv : CustomerEnv :=
  { readIncoming := none, send1 := ⟨true, true, true⟩, reply := none,
    send2 := ⟨false, true, true⟩, llm := .timeout }

/-- Environment for a customer whose round succeeds: sends work, a positive
reply arrives. -/
def okEnv : CustomerEnv :=
  { readIncoming := none, send1 := ⟨false, true, true⟩,
    reply := some "Loved it, thanks!", send2 := ⟨false, true, true⟩,
    llm := .timeout }

/-- Two pending customers; the block indicator appears while opening the
chat of the first. -/
def blockedScenarioCustomers : List Customer :=
  [⟨1, 1, "Ayesha", "923001234567", "Blender", false, "pending", "", "", ""⟩,
   ⟨2, 1, "Bilal", "923007654321", "Mixer", false, "pending", "", "", ""⟩]

/-- The campaign loop run over the blocked scenario with a connected
provider and no classification credential. -/
def blockedScenarioRun : List Customer :=
  campaignLoop "" "https://g.page/r/example" ⟨some ⟨false⟩, true⟩
    (fun n => if n = 1 then blockedEnv else okEnv)
    blockedScenarioCustomers blockedScenarioCustomers

/-- C1: evaluating the campaign at the failing input.  `open_chat` for the
first customer raises the distinct Blocked signal, but the per-customer
`except Exception` boundary of `run_campaign` absorbs it: customer 1 is
merely marked `error` (with the blocked message as audit text) and the loop
continues — customer 2 is fully processed to `done`.  The campaign does not
halt, contradicting the claim. -/
theorem campaign_continues_after_block :
    WhatsAppClient.open_chat blockedEnv.send1 = .error PyError.blocked ∧
    blockedScenarioRun.map (fun c => (c.id, c.status, c.sentiment, c.last_message)) =
      [(1, "error", "", "Error: WhatsApp blocking detected"),
       (2, "done", "Positive",
         pyTake (GOOGLE_LINK_MSG "Bilal" "https://g.page/r/example") 100)] := by
  exact ⟨rfl, by decide⟩

end ReviewMaster
